import Mathlib

/-!
Verification of the interactive-earth orbit/zoom controller and scene builder
of the fastpages personal website repository.

The JavaScript sources are embedded shallowly:
* `clamp` from `utils.js` / `scene.js`;
* the `Game` class of `game.js` (fields `angle_v`, `target_angle_v`, `angle`,
  `zoom`; methods `handleMouseMove`, `handleWheel`, `animate`);
* the standalone script variant (its module-level state and its
  `handleMouseMove` / `handleWheel` / `animate` functions, including the
  `prevTime`-based frame-time computation of the driver);
* the scene construction of `scene.js` (`createEarth`, `createClouds`,
  `createStarfield`, `createSun`, `createLight`, `createScene`).

JavaScript numbers are modelled as real numbers (the specification treats the
helpers as total functions over the reals); the purely arithmetic updates are
stated over an arbitrary linear ordered field so that they stay executable,
and are instantiated at `ℝ` where `Math.tanh` and the fractional power enter.
-/

set_option maxHeartbeats 1000000

/-- `clamp` from `utils.js` / `scene.js`:
`return Math.max(lo, Math.min(hi, x));` -/
def clamp {α : Type*} [LinearOrder α] (x lo hi : α) : α :=
  max lo (min hi x)

/-- The mutable orbit/zoom state: the fields set in the `Game` constructor
(`angle_v`, `target_angle_v`, `angle`, `zoom`), which are also the module-level
variables of the standalone script. -/
structure GameState (α : Type*) where
  angle_v : α
  target_angle_v : α
  angle : α
  zoom : α

/-- The initial state of the constructor:
`angle_v = 0`, `target_angle_v = 0`, `angle = 0`, `zoom = 1`. -/
def initState {α : Type*} [LinearOrderedField α] : GameState α :=
  ⟨0, 0, 0, 1⟩

/-- `Game.handleMouseMove(x, y)` from `game.js`:
`this.target_angle_v = 2.5 * (2 * x - 1);` (the `y` argument is unused). -/
def Game.handleMouseMove {α : Type*} [LinearOrderedField α]
    (s : GameState α) (x _y : α) : GameState α :=
  { s with target_angle_v := 5 / 2 * (2 * x - 1) }

/-- `Game.handleWheel(deltaY)` from `game.js`:
`const factor = 1 + 0.1 * Math.tanh(deltaY);`
`this.zoom *= factor**0.3;`
`this.zoom = clamp(this.zoom, 0.43, 3);` -/
noncomputable def Game.handleWheel (s : GameState ℝ) (deltaY : ℝ) : GameState ℝ :=
  let factor : ℝ := 1 + 1 / 10 * Real.tanh deltaY
  let zoom1 : ℝ := s.zoom * factor ^ ((3 : ℝ) / 10)
  { s with zoom := clamp zoom1 (43 / 100) 3 }

/-- `Game.animate(time, dt)` from `game.js` (the `time` argument is unused):
`const d_angle_v = 30 * dt * (this.target_angle_v - this.angle_v);`
`this.angle_v += dt * d_angle_v;`
`this.angle_v = clamp(this.angle_v, -2.5, 2.5);`
`this.angle += dt * this.angle_v;` -/
def Game.animate {α : Type*} [LinearOrderedField α]
    (s : GameState α) (_time dt : α) : GameState α :=
  let d_angle_v := 30 * dt * (s.target_angle_v - s.angle_v)
  let angle_v1 := s.angle_v + dt * d_angle_v
  let angle_v2 := clamp angle_v1 (-(5 / 2)) (5 / 2)
  { s with angle_v := angle_v2, angle := s.angle + dt * angle_v2 }

/-- `handleMouseMove(event)` of the standalone script:
`target_angle_v = 2.5 * (2 * ((event.clientX - offsetX) / WIDTH) - 1);`
with `offsetX = rect.left`. -/
def standalone.handleMouseMove {α : Type*} [LinearOrderedField α]
    (WIDTH rectLeft : α) (s : GameState α) (clientX : α) : GameState α :=
  { s with target_angle_v := 5 / 2 * (2 * ((clientX - rectLeft) / WIDTH) - 1) }

/-- `handleWheel(event)` of the standalone script:
`const factor = 1 + 0.1 * Math.tanh(event.deltaY);`
`zoom *= factor**0.3;`
`zoom = clamp(zoom, 0.43, 3);` -/
noncomputable def standalone.handleWheel (s : GameState ℝ) (deltaY : ℝ) : GameState ℝ :=
  let factor : ℝ := 1 + 1 / 10 * Real.tanh deltaY
  { s with zoom := clamp (s.zoom * factor ^ ((3 : ℝ) / 10)) (43 / 100) 3 }

/-- The state-update portion of the standalone script's `animate` (its lines
between the `dt` computation and the camera code), with `dt` given:
`const d_angle_v = 30 * dt * (target_angle_v - angle_v);`
`angle_v += dt * d_angle_v;`
`angle_v = clamp(angle_v, -2.5, 2.5);`
`angle += dt * angle_v;` -/
def standalone.animateCore {α : Type*} [LinearOrderedField α]
    (s : GameState α) (dt : α) : GameState α :=
  let d_angle_v := 30 * dt * (s.target_angle_v - s.angle_v)
  let angle_v1 := s.angle_v + dt * d_angle_v
  let angle_v2 := clamp angle_v1 (-(5 / 2)) (5 / 2)
  { s with angle_v := angle_v2, angle := s.angle + dt * angle_v2 }

/-- The frame-time computation of the standalone `animate(time)` driver:
`time *= 1e-3;`, `const dt = time - prevTime;`, then the state update, and at
the end of the frame `prevTime = time;`.  `prevTime` is initialised to `0` at
module load.  Returns the updated state and the new `prevTime`. -/
def standalone.animateFrame {α : Type*} [LinearOrderedField α]
    (prevTime : α) (s : GameState α) (time : α) : GameState α × α :=
  let timeS := time * (1 / 1000)
  let dt := timeS - prevTime
  (standalone.animateCore s dt, timeS)

/-- Claim C5: for every real `x` and all bounds with `lo ≤ hi`,
`clamp x lo hi` lies in `[lo, hi]`, and equals `x` whenever `lo ≤ x ≤ hi`. -/
theorem clamp_in_bounds_and_identity (x lo hi : ℝ) (h : lo ≤ hi) :
    (lo ≤ clamp x lo hi ∧ clamp x lo hi ≤ hi) ∧
      (lo ≤ x → x ≤ hi → clamp x lo hi = x) := by
  refine ⟨⟨le_max_left _ _, max_le h (min_le_left _ _)⟩, fun hlo hhi => ?_⟩
  rw [clamp, min_eq_right hhi, max_eq_right hlo]

/-- Witness for C5 at `x = 1`, `lo = 0`, `hi = 2`. -/
theorem clamp_in_bounds_and_identity_witness :
    ((0 : ℝ) ≤ clamp (1 : ℝ) 0 2 ∧ clamp (1 : ℝ) 0 2 ≤ 2) ∧
      ((0 : ℝ) ≤ 1 → (1 : ℝ) ≤ 2 → clamp (1 : ℝ) 0 2 = 1) :=
  clamp_in_bounds_and_identity 1 0 2 (by norm_num)

/-- Claim C1, counterexample: from the state
`{angle_v := 0, target_angle_v := 2.5, angle := 0, zoom := 1}`, one
`Game.animate` update with `dt = 0.1` does not produce
`angle_v = 2.5` and `angle = 0.25` as the claim asserts (the code computes
`d_angle_v = 30 * dt * (target - v)` and then multiplies by `dt` again,
yielding `angle_v = 0.75` and `angle = 0.075`). -/
theorem animate_scenario_counterexample :
    (Game.animate (⟨0, 5 / 2, 0, 1⟩ : GameState ℝ) 0 (1 / 10)).angle_v ≠ 5 / 2 ∧
      (Game.animate (⟨0, 5 / 2, 0, 1⟩ : GameState ℝ) 0 (1 / 10)).angle ≠ 1 / 4 := by
  constructor <;>
    simp only [Game.animate, clamp] <;> norm_num [min_def, max_def]

/-- Claim C1, amended: per frame the controller computes
`d_angle_v = 30 * dt * (target_angle_v - angle_v)` and updates
`angle_v += dt * d_angle_v` — an increment of `30 * dt² * (target - v)`, not
`30 * dt * (target - v)` — then clamps `angle_v` to `[-2.5, 2.5]` and updates
`angle += dt * angle_v`.  From the scenario state with `dt = 0.1` this gives
`angle_v = 0.75` (unclamped) and `angle = 0.075`. -/
theorem animate_update_rule :
    (∀ (s : GameState ℝ) (t dt : ℝ),
        (Game.animate s t dt).angle_v =
            clamp (s.angle_v + 30 * dt ^ 2 * (s.target_angle_v - s.angle_v))
              (-(5 / 2)) (5 / 2) ∧
          (Game.animate s t dt).angle =
            s.angle + dt * (Game.animate s t dt).angle_v ∧
          (Game.animate s t dt).target_angle_v = s.target_angle_v ∧
          (Game.animate s t dt).zoom = s.zoom) ∧
      (Game.animate (⟨0, 5 / 2, 0, 1⟩ : GameState ℝ) 0 (1 / 10)).angle_v = 3 / 4 ∧
      (Game.animate (⟨0, 5 / 2, 0, 1⟩ : GameState ℝ) 0 (1 / 10)).angle = 3 / 40 := by
  refine ⟨fun s t dt => ⟨?_, rfl, rfl, rfl⟩, ?_, ?_⟩
  · simp only [Game.animate]
    congr 1
    ring
  · simp only [Game.animate, clamp]; norm_num [min_def, max_def]
  · simp only [Game.animate, clamp]; norm_num [min_def, max_def]

/-- An input to the controller: an animation frame with its elapsed time `dt`
(seconds), a pointer-move with normalised coordinates, or a wheel event with
its vertical delta. -/
inductive InputEvent where
  | frame (dt : ℝ)
  | mouse (x y : ℝ)
  | wheel (deltaY : ℝ)

/-- One step of the `Game` state machine on an input event. -/
noncomputable def Game.step (s : GameState ℝ) : InputEvent → GameState ℝ
  | .frame dt => Game.animate s 0 dt
  | .mouse x y => Game.handleMouseMove s x y
  | .wheel d => Game.handleWheel s d

/-- Running the `Game` state machine over a finite sequence of events. -/
noncomputable def Game.run (s : GameState ℝ) (evs : List InputEvent) : GameState ℝ :=
  evs.foldl Game.step s

/-- The bounds maintained by the controller: `angle_v ∈ [-2.5, 2.5]` and
`zoom ∈ [0.43, 3]`. -/
def StateBounded (s : GameState ℝ) : Prop :=
  -(5 / 2) ≤ s.angle_v ∧ s.angle_v ≤ 5 / 2 ∧ 43 / 100 ≤ s.zoom ∧ s.zoom ≤ 3

lemma step_preserves_bounds (s : GameState ℝ) (e : InputEvent)
    (h : StateBounded s) : StateBounded (Game.step s e) := by
  obtain ⟨h1, h2, h3, h4⟩ := h
  cases e with
  | frame dt =>
      exact ⟨le_max_left _ _,
        max_le (by norm_num) (min_le_left _ _), h3, h4⟩
  | mouse x y => exact ⟨h1, h2, h3, h4⟩
  | wheel d =>
      exact ⟨h1, h2, le_max_left _ _,
        max_le (by norm_num) (min_le_left _ _)⟩

lemma run_preserves_bounds (evs : List InputEvent) :
    ∀ s : GameState ℝ, StateBounded s → StateBounded (Game.run s evs) := by
  induction evs with
  | nil => exact fun s h => h
  | cons e evs ih =>
      exact fun s h => ih (Game.step s e) (step_preserves_bounds s e h)

/-- Claim C2: starting from the initial state
`{angle := 0, angle_v := 0, target_angle_v := 0, zoom := 1}`, after any finite
sequence of frame updates (any finite `dt` values), pointer-move events and
wheel events, the state satisfies `angle_v ∈ [-2.5, 2.5]` and
`zoom ∈ [0.43, 3]`. -/
theorem run_state_bounded (evs : List InputEvent) :
    -(5 / 2) ≤ (Game.run initState evs).angle_v ∧
      (Game.run initState evs).angle_v ≤ 5 / 2 ∧
      43 / 100 ≤ (Game.run initState evs).zoom ∧
      (Game.run initState evs).zoom ≤ 3 :=
  run_preserves_bounds evs initState (by norm_num [StateBounded, initState])

/-- Claim C3, counterexample: `prevTime` is initialised to `0`, so the first
frame's `dt` is the frame's timestamp converted to seconds, not zero.  With the
state `{angle_v := 0, target_angle_v := 2.5, angle := 0, zoom := 1}` (a pointer
move can set the target before the first frame) and a first timestamp of
`100` ms, the computed `dt = 0.1 ≠ 0` and `angle_v` changes from `0` to
`0.75`. -/
theorem first_frame_counterexample :
    (100 : ℝ) * (1 / 1000) - 0 ≠ 0 ∧
      ((standalone.animateFrame 0 (⟨0, 5 / 2, 0, 1⟩ : GameState ℝ) 100).1).angle_v ≠ 0 := by
  constructor
  · norm_num
  · simp only [standalone.animateFrame, standalone.animateCore, clamp]
    norm_num [min_def, max_def]

/-- Claim C3, amended: the first frame's `dt` equals the received timestamp
times `10⁻³` (since `prevTime` starts at `0`), so the first frame behaves like
an update with that `dt`; `angle` and `angle_v` are left unchanged only when
that `dt` is zero, given `angle_v` already within `[-2.5, 2.5]`. -/
theorem first_frame_dt (s : GameState ℝ) (time : ℝ) :
    (standalone.animateFrame 0 s time).1 =
        standalone.animateCore s (time * (1 / 1000)) ∧
      (∀ s' : GameState ℝ, -(5 / 2) ≤ s'.angle_v → s'.angle_v ≤ 5 / 2 →
        (standalone.animateCore s' 0).angle = s'.angle ∧
          (standalone.animateCore s' 0).angle_v = s'.angle_v) := by
  refine ⟨by simp [standalone.animateFrame], fun s' h1 h2 => ?_⟩
  have hv : clamp (s'.angle_v + 0 * (30 * 0 * (s'.target_angle_v - s'.angle_v)))
      (-(5 / 2)) (5 / 2) = s'.angle_v := by
    rw [zero_mul, add_zero, clamp, min_eq_right h2, max_eq_right h1]
  simp only [standalone.animateCore]
  rw [hv]
  norm_num

/-- Witness for C3's amended theorem at the initial state with timestamp
`100` ms. -/
theorem first_frame_dt_witness :
    (standalone.animateFrame 0 (initState : GameState ℝ) 100).1 =
        standalone.animateCore initState (100 * (1 / 1000)) ∧
      (standalone.animateCore (initState : GameState ℝ) 0).angle =
        (initState : GameState ℝ).angle :=
  ⟨(first_frame_dt initState 100).1,
    ((first_frame_dt initState 100).2 initState
        (by norm_num [initState]) (by norm_num [initState])).1⟩

/-- Claim C4, counterexample: `handleMouseMove` applies no clamping, so for a
normalised pointer coordinate outside `[0, 1]` (here `x = 2`) the resulting
`target_angle_v = 2.5 * (2 * 2 - 1) = 7.5` lies outside `[-2.5, 2.5]`. -/
theorem mousemove_unclamped_counterexample :
    5 / 2 < (Game.handleMouseMove (initState : GameState ℝ) 2 0).target_angle_v := by
  simp only [Game.handleMouseMove]
  norm_num

/-- Claim C4, amended: `target_angle_v = 2.5 * (2 * normalizedX - 1)` with
`normalizedX = (clientX - rectLeft) / WIDTH` is strictly increasing in the
horizontal pointer coordinate for fixed positive viewport width, and lies in
`[-2.5, 2.5]` whenever `normalizedX ∈ [0, 1]`; no clamping is applied, so the
value leaves that interval when the normalised coordinate leaves `[0, 1]`. -/
theorem mousemove_monotone_and_bounds :
    (∀ (WIDTH rectLeft c1 c2 : ℝ) (s : GameState ℝ), 0 < WIDTH → c1 < c2 →
        (standalone.handleMouseMove WIDTH rectLeft s c1).target_angle_v <
          (standalone.handleMouseMove WIDTH rectLeft s c2).target_angle_v) ∧
      (∀ (x y : ℝ) (s : GameState ℝ), 0 ≤ x → x ≤ 1 →
        -(5 / 2) ≤ (Game.handleMouseMove s x y).target_angle_v ∧
          (Game.handleMouseMove s x y).target_angle_v ≤ 5 / 2) := by
  constructor
  · intro WIDTH rectLeft c1 c2 s hW hc
    simp only [standalone.handleMouseMove]
    have h : (c1 - rectLeft) / WIDTH < (c2 - rectLeft) / WIDTH :=
      div_lt_div_of_pos_right (by linarith) hW
    linarith
  · intro x y s h0 h1
    simp only [Game.handleMouseMove]
    constructor <;> linarith

/-- Witness for C4's amended theorem: monotone at `c1 = 0 < c2 = 1` with
`WIDTH = 1`, and bounds at `x = 1/2`. -/
theorem mousemove_monotone_and_bounds_witness :
    (standalone.handleMouseMove (1 : ℝ) 0 initState 0).target_angle_v <
        (standalone.handleMouseMove (1 : ℝ) 0 initState 1).target_angle_v ∧
      (-(5 / 2) ≤ (Game.handleMouseMove (initState : GameState ℝ) (1 / 2) 0).target_angle_v ∧
        (Game.handleMouseMove (initState : GameState ℝ) (1 / 2) 0).target_angle_v ≤ 5 / 2) :=
  ⟨mousemove_monotone_and_bounds.1 1 0 0 1 initState (by norm_num) (by norm_num),
    mousemove_monotone_and_bounds.2 (1 / 2) 0 initState (by norm_num) (by norm_num)⟩

lemma tanh_lt_one (x : ℝ) : Real.tanh x < 1 := by
  rw [Real.tanh_eq_sinh_div_cosh]
  exact (div_lt_one (Real.cosh_pos x)).mpr (Real.sinh_lt_cosh x)

lemma neg_one_lt_tanh (x : ℝ) : -1 < Real.tanh x := by
  have h := tanh_lt_one (-x)
  rw [Real.tanh_neg] at h
  linarith

/-- Claim C6: a wheel event replaces `zoom` by
`clamp (zoom * (1 + 0.1 * tanh deltaY) ^ 0.3) 0.43 3`; for `deltaY = 0` the
factor is `1` and `zoom` is unchanged when already within `[0.43, 3]`; and the
per-event multiplier `(1 + 0.1 * tanh deltaY) ^ 0.3` is bounded between
`0.9 ^ 0.3` and `1.1 ^ 0.3` for every `deltaY`. -/
theorem wheel_update_rule :
    (∀ (s : GameState ℝ) (d : ℝ),
        (Game.handleWheel s d).zoom =
          clamp (s.zoom * (1 + 1 / 10 * Real.tanh d) ^ ((3 : ℝ) / 10)) (43 / 100) 3) ∧
      (∀ s : GameState ℝ, 43 / 100 ≤ s.zoom → s.zoom ≤ 3 →
        (1 : ℝ) + 1 / 10 * Real.tanh 0 = 1 ∧ (Game.handleWheel s 0).zoom = s.zoom) ∧
      (∀ d : ℝ,
        ((9 : ℝ) / 10) ^ ((3 : ℝ) / 10) ≤ (1 + 1 / 10 * Real.tanh d) ^ ((3 : ℝ) / 10) ∧
          (1 + 1 / 10 * Real.tanh d) ^ ((3 : ℝ) / 10) ≤ ((11 : ℝ) / 10) ^ ((3 : ℝ) / 10)) := by
  refine ⟨fun s d => rfl, fun s h1 h2 => ⟨by simp, ?_⟩, fun d => ?_⟩
  · simp only [Game.handleWheel, Real.tanh_zero]
    norm_num [Real.one_rpow, clamp, min_eq_right h2, max_eq_right h1]
  · have hlo : (9 : ℝ) / 10 ≤ 1 + 1 / 10 * Real.tanh d := by
      have := neg_one_lt_tanh d
      linarith
    have hhi : 1 + 1 / 10 * Real.tanh d ≤ (11 : ℝ) / 10 := by
      have := tanh_lt_one d
      linarith
    exact ⟨Real.rpow_le_rpow (by norm_num) hlo (by norm_num),
      Real.rpow_le_rpow (by linarith) hhi (by norm_num)⟩

/-- Witness for C6 at the initial state (`zoom = 1`) with `deltaY = 0`. -/
theorem wheel_update_rule_witness :
    (1 : ℝ) + 1 / 10 * Real.tanh 0 = 1 ∧
      (Game.handleWheel (initState : GameState ℝ) 0).zoom = (initState : GameState ℝ).zoom :=
  wheel_update_rule.2.1 initState (by norm_num [initState]) (by norm_num [initState])

/-- The per-frame camera placement of both drivers:
`const radius = 16 * zoom;`
`camera.position.x = radius * Math.cos(angle);`
`camera.position.z = radius * Math.sin(angle);`
`camera.lookAt(0, 0, 0);`
(the camera's `y` coordinate is never set and keeps its default `0`).
Returns the camera position and the look-at target. -/
noncomputable def cameraPlacement (s : GameState ℝ) : (ℝ × ℝ × ℝ) × (ℝ × ℝ × ℝ) :=
  let radius := 16 * s.zoom
  ((radius * Real.cos s.angle, 0, radius * Real.sin s.angle), (0, 0, 0))

/-- The standalone `animate` frame including its camera code: the state/time
update followed by the camera placement read from the updated state. -/
noncomputable def standalone.renderFrame (prevTime : ℝ) (s : GameState ℝ) (time : ℝ) :
    (GameState ℝ × ℝ) × ((ℝ × ℝ × ℝ) × (ℝ × ℝ × ℝ)) :=
  let upd := standalone.animateFrame prevTime s time
  (upd, cameraPlacement upd.1)

/-- Claim C7: each frame, after the state update, the camera is placed at
`(radius * cos angle, 0, radius * sin angle)` with `radius = 16 * zoom`,
looking at the world origin, so it lies on a horizontal circle about the
origin of radius `16 * zoom`. -/
theorem camera_on_circle (prevTime : ℝ) (s : GameState ℝ) (time : ℝ) :
    (standalone.renderFrame prevTime s time).2 =
        cameraPlacement (standalone.animateFrame prevTime s time).1 ∧
      (cameraPlacement (standalone.animateFrame prevTime s time).1).1 =
        (16 * (standalone.animateFrame prevTime s time).1.zoom *
            Real.cos (standalone.animateFrame prevTime s time).1.angle,
          0,
          16 * (standalone.animateFrame prevTime s time).1.zoom *
            Real.sin (standalone.animateFrame prevTime s time).1.angle) ∧
      (cameraPlacement (standalone.animateFrame prevTime s time).1).2 = (0, 0, 0) ∧
      ((cameraPlacement (standalone.animateFrame prevTime s time).1).1.1) ^ 2 +
          ((cameraPlacement (standalone.animateFrame prevTime s time).1).1.2.2) ^ 2 =
        (16 * (standalone.animateFrame prevTime s time).1.zoom) ^ 2 := by
  refine ⟨rfl, rfl, rfl, ?_⟩
  simp only [cameraPlacement]
  linear_combination (256 * (standalone.animateFrame prevTime s time).1.zoom ^ 2) *
    Real.sin_sq_add_cos_sq (standalone.animateFrame prevTime s time).1.angle

/-- The `handleMouseMove(event)` driver of the `Game` variant:
`const offsetX = rect.left;`
`const offsetY = rect.left;`
`const x = (event.clientX - offsetX) / WIDTH;`
`const y = (event.clientY - offsetY) / HEIGHT;`
`game.handleMouseMove(x, y);` -/
def driver.handleMouseMove {α : Type*} [LinearOrderedField α]
    (rectLeft WIDTH HEIGHT : α) (g : GameState α) (clientX clientY : α) : GameState α :=
  let offsetX := rectLeft
  let offsetY := rectLeft
  let x := (clientX - offsetX) / WIDTH
  let y := (clientY - offsetY) / HEIGHT
  Game.handleMouseMove g x y

/-- Claim C9: the vertical pointer coordinate never influences orbit
behaviour — two pointer-move events with the same `clientX` but different
`clientY` produce identical states, and hence identical states after any
subsequent sequence of events. -/
theorem mousemove_ignores_y (rectLeft WIDTH HEIGHT : ℝ) (g : GameState ℝ)
    (clientX y1 y2 : ℝ) (evs : List InputEvent) :
    driver.handleMouseMove rectLeft WIDTH HEIGHT g clientX y1 =
        driver.handleMouseMove rectLeft WIDTH HEIGHT g clientX y2 ∧
      Game.run (driver.handleMouseMove rectLeft WIDTH HEIGHT g clientX y1) evs =
        Game.run (driver.handleMouseMove rectLeft WIDTH HEIGHT g clientX y2) evs := by
  have h : driver.handleMouseMove rectLeft WIDTH HEIGHT g clientX y1 =
      driver.handleMouseMove rectLeft WIDTH HEIGHT g clientX y2 := rfl
  exact ⟨h, by rw [h]⟩

/-- One step of the standalone script's state machine on an input event.  The
pointer event carries the normalised coordinate `x`, delivered to the
standalone handler as the client coordinate `rectLeft + x * WIDTH` (so that
`(clientX - rectLeft) / WIDTH = x`). -/
noncomputable def standalone.step (WIDTH rectLeft : ℝ) (s : GameState ℝ) :
    InputEvent → GameState ℝ
  | .frame dt => standalone.animateCore s dt
  | .mouse x _y => standalone.handleMouseMove WIDTH rectLeft s (rectLeft + x * WIDTH)
  | .wheel d => standalone.handleWheel s d

/-- Running the standalone script's state machine over a finite sequence of
events. -/
noncomputable def standalone.run (WIDTH rectLeft : ℝ) (s : GameState ℝ)
    (evs : List InputEvent) : GameState ℝ :=
  evs.foldl (standalone.step WIDTH rectLeft) s

/-- The camera placement of the `Game` driver (`animate` in the driver file):
`const radius = 16 * game.zoom;`
`camera.position.x = radius * Math.cos(game.angle);`
`camera.position.z = radius * Math.sin(game.angle);`
`camera.lookAt(0, 0, 0);` -/
noncomputable def driver.cameraPlacement (g : GameState ℝ) : (ℝ × ℝ × ℝ) × (ℝ × ℝ × ℝ) :=
  let radius := 16 * g.zoom
  ((radius * Real.cos g.angle, 0, radius * Real.sin g.angle), (0, 0, 0))

lemma standalone_step_eq_game_step (WIDTH rectLeft : ℝ) (hW : WIDTH ≠ 0)
    (s : GameState ℝ) (e : InputEvent) :
    standalone.step WIDTH rectLeft s e = Game.step s e := by
  cases e with
  | frame dt => rfl
  | mouse x y =>
      simp only [standalone.step, Game.step, standalone.handleMouseMove,
        Game.handleMouseMove]
      have hx : (rectLeft + x * WIDTH - rectLeft) / WIDTH = x := by
        rw [add_sub_cancel_left, mul_div_cancel_right₀ _ hW]
      rw [hx]
  | wheel d => rfl

lemma standalone_run_eq_game_run (WIDTH rectLeft : ℝ) (hW : WIDTH ≠ 0)
    (evs : List InputEvent) :
    ∀ s : GameState ℝ, standalone.run WIDTH rectLeft s evs = Game.run s evs := by
  induction evs with
  | nil => exact fun s => rfl
  | cons e evs ih =>
      intro s
      show standalone.run WIDTH rectLeft (standalone.step WIDTH rectLeft s e) evs =
        Game.run (Game.step s e) evs
      rw [standalone_step_eq_game_step WIDTH rectLeft hW s e]
      exact ih (Game.step s e)

/-- Claim C10: for every initial state and every identical finite sequence of
`(dt, normalised pointer x, wheel deltaY)` inputs, the standalone script's
state machine and the `Game` class produce equal states (for any nonzero
viewport width and any viewport offset), and the two drivers place the camera
by the same formula. -/
theorem variants_equivalent (WIDTH rectLeft : ℝ) (s : GameState ℝ)
    (evs : List InputEvent) (hW : WIDTH ≠ 0) :
    standalone.run WIDTH rectLeft s evs = Game.run s evs ∧
      (∀ g : GameState ℝ, driver.cameraPlacement g = cameraPlacement g) :=
  ⟨standalone_run_eq_game_run WIDTH rectLeft hW evs s, fun _g => rfl⟩

/-- Witness for C10 with `WIDTH = 1`, `rectLeft = 0`, the initial state, and a
sequence containing one event of each kind. -/
theorem variants_equivalent_witness :
    standalone.run 1 0 (initState : GameState ℝ)
        [InputEvent.mouse (3 / 4) (1 / 2), InputEvent.frame (1 / 60), InputEvent.wheel 5] =
      Game.run (initState : GameState ℝ)
        [InputEvent.mouse (3 / 4) (1 / 2), InputEvent.frame (1 / 60), InputEvent.wheel 5] :=
  (variants_equivalent 1 0 initState
      [InputEvent.mouse (3 / 4) (1 / 2), InputEvent.frame (1 / 60), InputEvent.wheel 5]
      (by norm_num)).1

/-- The `side` option of a material (`THREE.FrontSide` is the default,
`THREE.BackSide` renders the inside, `THREE.DoubleSide` renders both). -/
inductive Side where
  | front
  | back
  | double

/-- The kind of material constructed: `MeshPhongMaterial` (lit) or
`MeshBasicMaterial` (unlit / emissive-only shading). -/
inductive MaterialKind where
  | phong
  | basic

/-- A material as configured in `scene.js`, with the engine's defaults for the
options a constructor call leaves unset (`side = FrontSide`,
`depthWrite = true`, `transparent = false`, `opacity = 1`). -/
structure Material where
  kind : MaterialKind
  hasMap : Bool := false
  hasBumpMap : Bool := false
  hasSpecularMap : Bool := false
  hasAlphaMap : Bool := false
  bumpScale : ℚ := 0
  specular : Option ℕ := none
  color : Option ℕ := none
  opacity : ℚ := 1
  side : Side := Side.front
  depthWrite : Bool := true
  transparent : Bool := false

/-- `THREE.SphereGeometry(radius, widthSegments, heightSegments)`. -/
structure SphereGeometry where
  radius : ℚ
  widthSegments : ℕ
  heightSegments : ℕ

/-- An object inserted into the scene: a mesh (geometry, material, position)
or a point light (color, intensity, drop-off distance, position).  Positions
default to the origin and are only changed where the source sets them. -/
inductive SceneObject where
  | mesh (geometry : SphereGeometry) (material : Material) (position : ℚ × ℚ × ℚ)
  | pointLight (color : ℕ) (intensity : ℚ) (distance : ℚ) (position : ℚ × ℚ × ℚ)

/-- `createClouds(scene, textureLoader)` from `scene.js`: a sphere of radius
`6.371 + 0.02`, Phong material with diffuse map and alpha map, opacity `0.8`,
`DoubleSide`, `depthWrite: false`, `transparent: true`, added to the scene. -/
def createClouds (scene : List SceneObject) : List SceneObject :=
  scene ++ [SceneObject.mesh ⟨6371 / 1000 + 2 / 100, 32, 32⟩
    { kind := MaterialKind.phong, hasMap := true, hasAlphaMap := true,
      opacity := 8 / 10, side := Side.double, depthWrite := false,
      transparent := true } (0, 0, 0)]

/-- `createEarth(scene, textureLoader)` from `scene.js`: a sphere of radius
`6.371` with a Phong material (diffuse, bump and specular maps,
`bumpScale: 0.15`, `specular: 0x101010`), added to the scene, followed by
`createClouds(scene, textureLoader)`. -/
def createEarth (scene : List SceneObject) : List SceneObject :=
  createClouds (scene ++ [SceneObject.mesh ⟨6371 / 1000, 32, 32⟩
    { kind := MaterialKind.phong, hasMap := true, hasBumpMap := true,
      hasSpecularMap := true, bumpScale := 15 / 100,
      specular := some 0x101010 } (0, 0, 0)])

/-- `createStarfield(scene, textureLoader)` from `scene.js`: a sphere of
radius `1200` with a basic (unlit) material, `color: 0xFFFFFF`, a star map and
`side: THREE.BackSide`, added to the scene. -/
def createStarfield (scene : List SceneObject) : List SceneObject :=
  scene ++ [SceneObject.mesh ⟨1200, 32, 32⟩
    { kind := MaterialKind.basic, color := some 0xFFFFFF, hasMap := true,
      side := Side.back } (0, 0, 0)]

/-- `createLight(scene, x)` from `scene.js`: a white point light of intensity
`1.5` and drop-off `2000` positioned at `(x, 0, 0)`, added to the scene. -/
def createLight (scene : List SceneObject) (x : ℚ) : List SceneObject :=
  scene ++ [SceneObject.pointLight 0xFFFFFF (3 / 2) 2000 (x, 0, 0)]

/-- `createSun(scene, textureLoader)` from `scene.js`: a sphere of radius
`2 * 0.696` with a white basic (emissive) material, positioned at `x = 152`,
added to the scene, followed by `createLight(scene, sun.position.x)`. -/
def createSun (scene : List SceneObject) : List SceneObject :=
  let sunPosX : ℚ := 152
  createLight (scene ++ [SceneObject.mesh ⟨2 * (696 / 1000), 32, 32⟩
    { kind := MaterialKind.basic, color := some 0xFFFFFF } (sunPosX, 0, 0)]) sunPosX

/-- `createScene()` from `scene.js`: starting from a fresh scene, runs
`createEarth`, `createStarfield` and `createSun` in order. -/
def createScene : List SceneObject :=
  [createEarth, createStarfield, createSun].foldl (fun scene createElem => createElem scene) []

/-- Claim C8: the scene builder deterministically inserts into the supplied
scene container (running the builders on any container appends exactly the
objects of `createScene`): a planet sphere; a concentric cloud sphere of
strictly larger radius (`6.391` vs `6.371`) that is transparent, alpha-masked,
double-sided, with depth-write disabled; a very large inverted (back-side
rendered) starfield sphere; and an emissive (unlit) sun sphere at `x = 152`
paired with a point light at the same position. -/
theorem scene_builder_contents :
    (∀ scene : List SceneObject,
        [createEarth, createStarfield, createSun].foldl
            (fun sc createElem => createElem sc) scene =
          scene ++ createScene) ∧
      ∃ (earthG cloudG starG sunG : SphereGeometry)
        (earthM cloudM starM sunM : Material)
        (c : ℕ) (intensity dist : ℚ) (sunPos lightPos : ℚ × ℚ × ℚ),
        createScene =
            [SceneObject.mesh earthG earthM (0, 0, 0),
              SceneObject.mesh cloudG cloudM (0, 0, 0),
              SceneObject.mesh starG starM (0, 0, 0),
              SceneObject.mesh sunG sunM sunPos,
              SceneObject.pointLight c intensity dist lightPos] ∧
          earthG.radius = 6371 / 1000 ∧ cloudG.radius = 6391 / 1000 ∧
          earthG.radius < cloudG.radius ∧
          cloudM.transparent = true ∧ cloudM.hasAlphaMap = true ∧
          cloudM.side = Side.double ∧ cloudM.depthWrite = false ∧
          starM.side = Side.back ∧ starG.radius = 1200 ∧
          cloudG.radius < starG.radius ∧
          sunM.kind = MaterialKind.basic ∧ sunPos = (152, 0, 0) ∧
          lightPos = (152, 0, 0) ∧ sunPos = lightPos := by
  constructor
  · intro scene
    simp [createScene, createEarth, createClouds, createStarfield, createSun,
      createLight, List.append_assoc]
  · refine ⟨⟨6371 / 1000, 32, 32⟩, ⟨6371 / 1000 + 2 / 100, 32, 32⟩,
      ⟨1200, 32, 32⟩, ⟨2 * (696 / 1000), 32, 32⟩,
      { kind := MaterialKind.phong, hasMap := true, hasBumpMap := true,
        hasSpecularMap := true, bumpScale := 15 / 100, specular := some 0x101010 },
      { kind := MaterialKind.phong, hasMap := true, hasAlphaMap := true,
        opacity := 8 / 10, side := Side.double, depthWrite := false,
        transparent := true },
      { kind := MaterialKind.basic, color := some 0xFFFFFF, hasMap := true,
        side := Side.back },
      { kind := MaterialKind.basic, color := some 0xFFFFFF },
      0xFFFFFF, 3 / 2, 2000, (152, 0, 0), (152, 0, 0),
      rfl, rfl, by norm_num, by norm_num, rfl, rfl, rfl, rfl, rfl, rfl,
      by norm_num, rfl, rfl, rfl, rfl⟩
